import Mathlib

/-!
Verification of the FireCMS navigation / side-panel subsystem.

The development shallowly embeds:
* the collection-path resolver (`getCollectionViewFromPath`), modelled from the
  specification because `src/core/navigation.ts` is not part of the provided
  sources (only its test file and its callers are);
* the side-panel stack controller (`SideEntityProvider` in the unnamed source
  file): `openPanel`, `closePanel`, the history listener and
  `buildSidePanelsFromUrl`'s panel-building loop, translated from the source;
* the `useCollectionFetch` data-merging logic (`updateData`), translated from
  the source.
-/

namespace FireCMS

/-- Collection descriptor: a relative path segment plus nested subcollection
descriptors (tree structure). -/
structure EntityCollection where
  relativePath : String
  subcollections : List EntityCollection
deriving Repr

/-- Split a slash-delimited path into its segments (the model of
`path.split("/")`). -/
def splitOnSlash (s : String) : List String :=
  (s.data.splitOn '/').map (fun l => String.mk l)

/-- Join segments back with slashes (the model of `segments.join("/")`). -/
def joinSegs (segs : List String) : String :=
  String.mk (List.intercalate ['/'] (segs.map String.data))

/-- Modelled from the spec: one level of the path resolver of
`getCollectionViewFromPath` (`src/core/navigation.ts`, absent from the
sources).  Among the candidate collections, find one whose `relativePath`
equals the joined first `k` segments, trying the largest `k` first and
stepping down by two (collection/entity alternation), as evidenced by the
in-repo tests where multi-segment relative paths match whole path prefixes. -/
def findAtLevel (segs : List String) (cols : List EntityCollection) : Nat → Option (EntityCollection × Nat)
  | 0 => none
  | 1 =>
    match cols.find? (fun c => c.relativePath == joinSegs (segs.take 1)) with
    | some c => some (c, 1)
    | none => none
  | k + 2 =>
    match cols.find? (fun c => c.relativePath == joinSegs (segs.take (k + 2))) with
    | some c => some (c, k + 2)
    | none => findAtLevel segs cols k

/-- Modelled from the spec: the recursive walk of `getCollectionViewFromPath`.
After matching a collection over the first `k` segments, skip the following
entity-id segment and resolve the remaining segments against the matched
collection's subcollections.  An unmatched level yields `none` (no match) and
never an error.  The fuel is the segment count, which bounds the recursion
depth since every level consumes at least two segments. -/
def resolveLevels : Nat → List String → List EntityCollection → Option EntityCollection
  | 0, _, _ => none
  | fuel + 1, segs, cols =>
    match findAtLevel segs cols segs.length with
    | none => none
    | some (c, k) =>
      if k == segs.length then some c
      else resolveLevels fuel (segs.drop (k + 1)) c.subcollections

/-- Modelled from the spec: `getCollectionViewFromPath`
(`src/core/navigation.ts`, absent from the sources).  A path with an even
number of segments is a contract violation reported by throwing an error that
names the offending path (modelled as `Except.error`); otherwise the resolver
walks the path, returning `some` matched collection or `none`. -/
def getCollectionViewFromPath (path : String) (cols : List EntityCollection) :
    Except String (Option EntityCollection) :=
  let segs := splitOnSlash path
  if segs.length % 2 == 0 then
    Except.error ("Collection paths must have an odd number of segments: " ++ path)
  else
    Except.ok (resolveLevels segs.length segs cols)

/-- A test configuration mirroring the shape exercised by
`src/test/navigation.test.ts`. -/
def testCols : List EntityCollection :=
  [ ⟨"products", [⟨"locales", []⟩]⟩,
    ⟨"sites/es/products", [⟨"locales", []⟩]⟩,
    ⟨"products/id/subcollection_inline", []⟩ ]

example :
    (getCollectionViewFromPath "products" testCols).map (Option.map EntityCollection.relativePath)
      = Except.ok (some "products") := by rfl

example :
    (getCollectionViewFromPath "products/pid/locales" testCols).map (Option.map EntityCollection.relativePath)
      = Except.ok (some "locales") := by rfl

example :
    (getCollectionViewFromPath "sites/es/products" testCols).map (Option.map EntityCollection.relativePath)
      = Except.ok (some "sites/es/products") := by rfl

example :
    (getCollectionViewFromPath "sites/es/products/pid/locales" testCols).map (Option.map EntityCollection.relativePath)
      = Except.ok (some "locales") := by rfl

example :
    (getCollectionViewFromPath "products/pid/not_existing" testCols).map (Option.map EntityCollection.relativePath)
      = Except.ok none := by rfl

example :
    getCollectionViewFromPath "products/pid" testCols
      = Except.error "Collection paths must have an odd number of segments: products/pid" := by rfl

example :
    (getCollectionViewFromPath "products/id/subcollection_inline" testCols).map (Option.map EntityCollection.relativePath)
      = Except.ok (some "products/id/subcollection_inline") := by rfl

/-! ## Side-panel stack controller (translated from the unnamed source file) -/

/-- `SideEntityPanelProps` extended with the registry key
(`ExtendedPanelProps` in the source).  `entityId`, `sidePanelKey` and
`selectedSubpath` may be absent (`undefined` in the source). -/
structure ExtendedPanelProps where
  collectionPath : String
  entityId : Option String
  copy : Bool
  sidePanelKey : Option String
  selectedSubpath : Option String
deriving Repr, DecidableEq

/-- JavaScript truthiness of an optional string: `undefined` and the empty
string are falsy. -/
def truthyStr : Option String → Bool
  | none => false
  | some s => s ≠ ""

/-- JavaScript truthiness of an optional boolean. -/
def truthyBool : Option Bool → Bool
  | some b => b
  | none => false

/-- The schema-configuration part of the props handed to `open`
(`schema`, `permissions`, `subcollections` of `SchemaConfig`); the payloads
are opaque to this development, only their presence matters. -/
structure SchemaConfigProps where
  schema : Option Nat
  permissions : Option Nat
  subcollections : Option Nat
deriving Repr, DecidableEq

/-- Modelled from the spec: `getSidePanelKey` (`src/core/utils`, absent from
the sources) builds "a composite of collection path and entity id" used to
key schema overrides. -/
def getSidePanelKey (collectionPath : String) (entityId : Option String) : String :=
  if truthyStr entityId then collectionPath ++ "#" ++ entityId.getD "" else collectionPath

/-- Modelled from the spec: `getEntityPath` (`src/core/navigation.ts`, absent
from the sources), the URL of an entity view, optionally with a selected
subpath. -/
def getEntityPath (entityId : String) (collectionPath : String) (subpath : Option String) : String :=
  "/c/" ++ collectionPath ++ "/" ++ entityId ++
    (match subpath with
     | some sp => "/" ++ sp
     | none => "")

/-- Modelled from the spec: `getRouterNewEntityPath` (`src/core/navigation.ts`,
absent from the sources), the URL for creating a new entity in a collection. -/
def getRouterNewEntityPath (collectionPath : String) : String :=
  "/c/" ++ collectionPath ++ "/new"

/-- Modelled from the spec: `getCMSPathFrom` (`src/core/navigation.ts`, absent
from the sources), the CMS URL of a collection path. -/
def getCMSPathFrom (path : String) : String :=
  "/c/" ++ path

/-- Modelled from the spec: `setOverride` of the schema side-registry
(`src/side_dialog/SchemaRegistry`, absent from the sources): register a
schema/permissions override under a key, replacing any previous override for
that key. -/
def setOverride (key : String) (cfg : SchemaConfigProps)
    (ovs : List (String × SchemaConfigProps)) : List (String × SchemaConfigProps) :=
  (key, cfg) :: ovs.filter (fun p => p.1 ≠ key)

/-- Modelled from the spec: `removeAllOverridesExcept` of the schema
side-registry (absent from the sources): prune every override whose key is
not in the given list. -/
def removeAllOverridesExcept (keys : List String)
    (ovs : List (String × SchemaConfigProps)) : List (String × SchemaConfigProps) :=
  ovs.filter (fun p => p.1 ∈ keys)

/-- One browser-history entry: a path and the optional `panels` field of its
location state (`none` models an absent state or an absent `panels` key;
`some []` models a present but empty panels array, which is truthy in
JavaScript). -/
structure HistoryEntry where
  path : String
  panels : Option (List ExtendedPanelProps)
deriving Repr, DecidableEq

/-- The state of `SideEntityProvider`: the browser history (entries before
the current one, the current entry, entries after it), the `sidePanels`
React state and the schema side-registry.  The `main_location` field of the
pushed states never influences panels, registry or history shape and is
omitted. -/
structure ProviderState where
  back : List HistoryEntry
  current : HistoryEntry
  forward : List HistoryEntry
  sidePanels : List ExtendedPanelProps
  overrides : List (String × SchemaConfigProps)
deriving Repr, DecidableEq

/-- The keys collected by the history listener:
`panels.map(e => e.sidePanelKey).filter(k => !!k)`. -/
def panelKeys (ps : List ExtendedPanelProps) : List String :=
  (ps.filterMap ExtendedPanelProps.sidePanelKey).filter (fun k => k ≠ "")

/-- The `history.listen` callback of `SideEntityProvider` (lines 104-117 of
the source): on every history navigation, if the new location state carries a
`panels` list, prune the override registry to the side-panel keys present in
it and adopt it as the panel stack; otherwise clear both. -/
def listenerApply (s : ProviderState) : ProviderState :=
  match s.current.panels with
  | some ps =>
      { s with
        sidePanels := ps,
        overrides := removeAllOverridesExcept (panelKeys ps) s.overrides }
  | none =>
      { s with
        sidePanels := [],
        overrides := removeAllOverridesExcept [] s.overrides }

/-- `history.push(path, state)`: the current entry moves into the back list,
forward entries are discarded, and the listener fires on the new location. -/
def historyPush (s : ProviderState) (path : String)
    (panels : Option (List ExtendedPanelProps)) : ProviderState :=
  listenerApply
    { s with
      back := s.back ++ [s.current],
      current := ⟨path, panels⟩,
      forward := [] }

/-- `history.replace(path, state)`: the current entry is replaced in place
and the listener fires on the new location. -/
def historyReplace (s : ProviderState) (path : String)
    (panels : Option (List ExtendedPanelProps)) : ProviderState :=
  listenerApply { s with current := ⟨path, panels⟩ }

/-- `history.go(-1)`: move to the previous entry when one exists (otherwise
the browser ignores the call and no event fires). -/
def historyGoBack (s : ProviderState) : ProviderState :=
  match s.back.getLast? with
  | some b =>
      listenerApply
        { s with
          back := s.back.dropLast,
          current := b,
          forward := s.current :: s.forward }
  | none => s

/-- `close` of the side-panel controller (lines 130-144 of the source). -/
def closePanel (s : ProviderState) : ProviderState :=
  match s.sidePanels.getLast? with
  | none => s
  | some lastSidePanel =>
    match s.current.panels with
    | some ps =>
        if ps.length > 0 then historyGoBack s
        else historyReplace s (getCMSPathFrom lastSidePanel.collectionPath) none
    | none => historyReplace s (getCMSPathFrom lastSidePanel.collectionPath) none

/-- The props handed to `open`
(`SideEntityPanelProps & Partial<SchemaConfig> & { overrideSchemaResolver }`). -/
structure OpenProps where
  collectionPath : String
  entityId : Option String
  selectedSubpath : Option String
  copy : Option Bool
  schema : Option Nat
  permissions : Option Nat
  subcollections : Option Nat
  overrideSchemaResolver : Option Bool
deriving Repr, DecidableEq

/-- The in-place-update condition of `open` (lines 182-185 of the source):
a truthy `entityId`, a topmost panel, and that panel's collection path and
entity id equal to the requested ones. -/
def openMatches (props : OpenProps) (s : ProviderState) : Bool :=
  truthyStr props.entityId &&
    (match s.sidePanels.getLast? with
     | some last => (last.collectionPath == props.collectionPath) && (last.entityId == props.entityId)
     | none => false)

/-- Lines 160-173 of the source: when any of `schema`, `permissions` or
`subcollections` is provided to `open`, register the override in the
side-registry under the side-panel key before navigating. -/
def applySchemaProps (props : OpenProps) (s : ProviderState) : ProviderState :=
  if props.schema.isSome || props.permissions.isSome || props.subcollections.isSome then
    { s with
      overrides := setOverride (getSidePanelKey props.collectionPath props.entityId)
        ⟨props.schema, props.permissions, props.subcollections⟩ s.overrides }
  else s

/-- `open` of the side-panel controller (lines 146-216 of the source).
Copying without an entity id throws (modelled as `Except.error`); a provided
schema/permissions/subcollections override is registered first; then either
the topmost panel is updated in place with a `history.replace`, or a new
panel is pushed with a `history.push`. -/
def openPanel (props : OpenProps) (s : ProviderState) : Except String ProviderState :=
  if truthyBool props.copy && !truthyStr props.entityId then
    Except.error "If you want to copy an entity you need to provide an entityId"
  else
    let sidePanelKey := getSidePanelKey props.collectionPath props.entityId
    let s1 := applySchemaProps props s
    let newPath :=
      if truthyStr props.entityId then
        getEntityPath (props.entityId.getD "") props.collectionPath props.selectedSubpath
      else getRouterNewEntityPath props.collectionPath
    let newPanel : ExtendedPanelProps :=
      ⟨props.collectionPath, props.entityId, truthyBool props.copy, some sidePanelKey, props.selectedSubpath⟩
    if openMatches props s then
      match s.sidePanels.getLast? with
      | some lastSidePanel =>
          let updatedPanel : ExtendedPanelProps :=
            { lastSidePanel with
              sidePanelKey := some sidePanelKey,
              selectedSubpath := props.selectedSubpath }
          Except.ok (historyReplace s1
            (getEntityPath (props.entityId.getD "") props.collectionPath props.selectedSubpath)
            (some (s.sidePanels.dropLast ++ [updatedPanel])))
      | none =>
          Except.ok (historyPush s1 newPath (some (s.sidePanels ++ [newPanel])))
    else
      Except.ok (historyPush s1 newPath (some (s.sidePanels ++ [newPanel])))

example :
    (openPanel ⟨"products", some "p1", none, none, none, none, none, none⟩
        ⟨[], ⟨"/c/products", none⟩, [], [], []⟩).map ProviderState.sidePanels
      = Except.ok [⟨"products", some "p1", false, some "products#p1", none⟩] := by rfl

example :
    (openPanel ⟨"products", some "p1", some "locales", none, none, none, none, none⟩
        ⟨[⟨"/c/products", none⟩], ⟨"/c/products/p1", some [⟨"products", some "p1", false, some "products#p1", none⟩]⟩, [],
          [⟨"products", some "p1", false, some "products#p1", none⟩], []⟩).map
        (fun s => (s.sidePanels, s.back.length))
      = Except.ok ([⟨"products", some "p1", false, some "products#p1", some "locales"⟩], 1) := by rfl

/-! ## Panel building from resolved navigation entries -/

/-- A custom view attached to an entity schema; only its path matters here. -/
structure EntityCustomView where
  path : String
deriving Repr

/-- A resolved navigation entry (`NavigationViewEntry` of `src/core/navigation`):
a tagged variant over collection, entity and custom view. -/
inductive NavigationViewEntry where
  | collection (fullPath : String) (collection : EntityCollection)
  | entity (entityId : String) (collectionPath : String) (fullPath : String)
  | custom_view (view : EntityCustomView) (fullPath : String)
deriving Repr

/-- Apply a function to the last element of a list, if any (the model of
mutating `sidePanels[sidePanels.length - 1]` in place). -/
def updateLast {α : Type} (f : α → α) : List α → List α
  | [] => []
  | [a] => [f a]
  | a :: b :: rest => a :: updateLast f (b :: rest)

/-- The body of the `buildSidePanelsFromUrl` loop (lines 240-273 of the
source) for an index `i > 0`, given the entry at `i - 1` and the entry at
`i`: an entity entry after a collection entry pushes a panel; a custom view
or collection entry after an entity entry sets the selected subpath of the
last panel. -/
def buildStep (previousEntry navigationEntry : NavigationViewEntry)
    (panels : List ExtendedPanelProps) : List ExtendedPanelProps :=
  match navigationEntry with
  | .entity entityId collectionPath _ =>
    match previousEntry with
    | .collection _ _ => panels ++ [⟨collectionPath, some entityId, false, none, none⟩]
    | _ => panels
  | .custom_view view _ =>
    match previousEntry with
    | .entity _ _ _ => updateLast (fun p => { p with selectedSubpath := some view.path }) panels
    | _ => panels
  | .collection _ col =>
    match previousEntry with
    | .entity _ _ _ => updateLast (fun p => { p with selectedSubpath := some col.relativePath }) panels
    | _ => panels

/-- The `buildSidePanelsFromUrl` loop: walk the entries carrying the entry of
the previous iteration (`none` at index 0, which is handled by the main
navigation and builds no panel), the accumulated panels and the full path of
the last collection entry seen. -/
def buildLoop : Option NavigationViewEntry → List NavigationViewEntry →
    List ExtendedPanelProps → String → List ExtendedPanelProps × String
  | _, [], panels, lastCollectionPath => (panels, lastCollectionPath)
  | prev, e :: rest, panels, lastCollectionPath =>
    let lcp :=
      match e with
      | .collection fullPath _ => fullPath
      | _ => lastCollectionPath
    let panels' :=
      match prev with
      | none => panels
      | some p => buildStep p e panels
    buildLoop (some e) rest panels' lcp

/-- `buildSidePanelsFromUrl` (lines 231-283 of the source) applied to an
already-resolved entry sequence: run the loop and, when the `#new` flag is
set, append one extra panel with no entity id for the last collection path. -/
def buildSidePanelsFromEntries (entries : List NavigationViewEntry) (newFlag : Bool) :
    List ExtendedPanelProps :=
  let r := buildLoop none entries [] ""
  if newFlag then r.1 ++ [⟨r.2, none, false, none, none⟩] else r.1

/-- The full path of the last collection entry of the sequence (empty when
there is none), as described by the claim. -/
def lastCollectionFullPath (entries : List NavigationViewEntry) : String :=
  entries.foldl
    (fun acc e =>
      match e with
      | .collection fullPath _ => fullPath
      | _ => acc) ""

/-- The claim's description of one adjacent pair (predecessor, entry):
an entity entry whose predecessor is a collection entry creates a panel; a
custom view or collection entry whose predecessor is an entity entry sets the
selected subpath of the last created panel; everything else creates nothing. -/
def claimStep (panels : List ExtendedPanelProps)
    (pc : NavigationViewEntry × NavigationViewEntry) : List ExtendedPanelProps :=
  match pc.1, pc.2 with
  | .collection _ _, .entity entityId collectionPath _ =>
      panels ++ [⟨collectionPath, some entityId, false, none, none⟩]
  | .entity _ _ _, .custom_view view _ =>
      updateLast (fun p => { p with selectedSubpath := some view.path }) panels
  | .entity _ _ _, .collection _ col =>
      updateLast (fun p => { p with selectedSubpath := some col.relativePath }) panels
  | _, _ => panels

/-- The claim's description of the whole panel construction, stated over the
adjacent pairs of the entry sequence. -/
def buildSidePanelsClaim (entries : List NavigationViewEntry) (newFlag : Bool) :
    List ExtendedPanelProps :=
  let panels := (entries.zip entries.tail).foldl claimStep []
  if newFlag then panels ++ [⟨lastCollectionFullPath entries, none, false, none, none⟩]
  else panels

/-! ## Collection fetching (`useCollectionFetch`, translated from the source) -/

/-- An entity of a collection: an id and optional values (only the presence
of the values matters to the merging logic). -/
structure Entity where
  id : String
  values : Option Nat
deriving Repr, DecidableEq

/-- `initialEntities` (line 74 of `useCollectionFetch.tsx`): the entities
displayed first that have defined values.  The source guards on
`entitiesDisplayedFirst` being present; an absent list is modelled as `[]`,
for which the filter also yields `[]`. -/
def initialEntities (entitiesDisplayedFirst : List Entity) : List Entity :=
  entitiesDisplayedFirst.filter (fun e => e.values.isSome)

/-- `updateData` (lines 81-88 of `useCollectionFetch.tsx`): the displayed-first
entities come first, followed by the delivered entities whose id does not
collide with a displayed-first id.  (The `if (!initialEntities)` branch of the
source is unreachable: `initialEntities` is always an array, and an empty
array is truthy in JavaScript.) -/
def updateData (entitiesDisplayedFirst : List Entity) (entities : List Entity) : List Entity :=
  let init := initialEntities entitiesDisplayedFirst
  let displayedFirstId := init.map Entity.id
  init ++ entities.filter (fun e => !displayedFirstId.contains e.id)

/-- An event delivered to the `listenCollection` callbacks of
`useCollectionFetch` (lines 94-113): a successful batch or an error. -/
inductive FetchEvent where
  | success (entities : List Entity)
  | failure
deriving Repr, DecidableEq

/-- The `data` state after one event: a successful batch goes through
`updateData` (line 100); an error resets `data` to `[]` (line 106). -/
def dataAfterEvent (entitiesDisplayedFirst : List Entity) (_d : List Entity) :
    FetchEvent → List Entity
  | .success entities => updateData entitiesDisplayedFirst entities
  | .failure => []

/-- The `data` state of the hook after a sequence of listener events,
starting from `initialEntities` (line 75). -/
def dataAfter (entitiesDisplayedFirst : List Entity) (events : List FetchEvent) : List Entity :=
  events.foldl (dataAfterEvent entitiesDisplayedFirst) (initialEntities entitiesDisplayedFirst)

/-! ## Theorems -/

/-- Claim C1: for every slash-delimited path whose segment count is even,
path resolution (`getCollectionViewFromPath`) throws an error whose message
identifies the offending path, rather than returning a result. -/
theorem c1_even_segments_throw (path : String) (cols : List EntityCollection)
    (h : (splitOnSlash path).length % 2 = 0) :
    getCollectionViewFromPath path cols
      = Except.error ("Collection paths must have an odd number of segments: " ++ path) := by
  simp only [getCollectionViewFromPath, h]
  rfl

/-- Witness for claim C1 at the path of the repository's own test. -/
theorem c1_witness :
    (splitOnSlash "products/pid").length % 2 = 0 ∧
      getCollectionViewFromPath "products/pid" testCols
        = Except.error ("Collection paths must have an odd number of segments: " ++ "products/pid") :=
  ⟨by decide, c1_even_segments_throw "products/pid" testCols (by decide)⟩

/-- Claim C8: calling `close` when the panel stack is empty is a no-op: the
panel stack, the history and the override registry are all left unchanged. -/
theorem c8_close_empty_noop (s : ProviderState) (h : s.sidePanels = []) :
    closePanel s = s := by
  unfold closePanel
  rw [h]
  rfl

/-- Witness for claim C8 at a concrete state with no open panel. -/
theorem c8_witness :
    (ProviderState.sidePanels ⟨[], ⟨"/c/products", none⟩, [], [], [("k", ⟨some 0, none, none⟩)]⟩ = []) ∧
      closePanel ⟨[], ⟨"/c/products", none⟩, [], [], [("k", ⟨some 0, none, none⟩)]⟩
        = ⟨[], ⟨"/c/products", none⟩, [], [], [("k", ⟨some 0, none, none⟩)]⟩ :=
  ⟨rfl, c8_close_empty_noop ⟨[], ⟨"/c/products", none⟩, [], [], [("k", ⟨some 0, none, none⟩)]⟩ rfl⟩

/-- Pruning to an empty key list empties the registry. -/
theorem removeAllOverridesExcept_nil (ovs : List (String × SchemaConfigProps)) :
    removeAllOverridesExcept [] ovs = [] := by
  simp [removeAllOverridesExcept]

/-- The listener on a location without a panels state clears panels and
registry and leaves the history untouched. -/
theorem listenerApply_none (s : ProviderState) (h : s.current.panels = none) :
    listenerApply s = { s with sidePanels := [], overrides := [] } := by
  unfold listenerApply
  rw [h]
  simp [removeAllOverridesExcept]

/-- The listener on a location carrying a panels state adopts it and prunes
the registry to its keys. -/
theorem listenerApply_some (s : ProviderState) (ps : List ExtendedPanelProps)
    (h : s.current.panels = some ps) :
    listenerApply s
      = { s with sidePanels := ps, overrides := removeAllOverridesExcept (panelKeys ps) s.overrides } := by
  unfold listenerApply
  rw [h]

/-- Claim C6: after every history navigation event, every override remaining
in the side registry is keyed by the `sidePanelKey` of some panel in the new
panel stack; when the new location carries no panels, all overrides are
removed. -/
theorem c6_listener_prunes (s : ProviderState) :
    (∀ kv, kv ∈ (listenerApply s).overrides →
       ∃ p, p ∈ (listenerApply s).sidePanels ∧ p.sidePanelKey = some kv.1)
    ∧ (s.current.panels = none → (listenerApply s).overrides = []) := by
  constructor
  · intro kv hkv
    cases hp : s.current.panels with
    | none =>
      rw [listenerApply_none s hp] at hkv
      simp at hkv
    | some ps =>
      rw [listenerApply_some s ps hp] at hkv ⊢
      simp only [removeAllOverridesExcept, List.mem_filter, decide_eq_true_eq] at hkv
      obtain ⟨-, hmem⟩ := hkv
      unfold panelKeys at hmem
      rw [List.mem_filter] at hmem
      obtain ⟨hmem, -⟩ := hmem
      rw [List.mem_filterMap] at hmem
      obtain ⟨p, hp1, hp2⟩ := hmem
      exact ⟨p, hp1, hp2⟩
  · intro hp
    rw [listenerApply_none s hp]

/-- Witness for claim C6: a navigation keeping one panel retains its
override, and a navigation to a location without panels clears the
registry. -/
theorem c6_witness :
    (∃ p, p ∈ (listenerApply ⟨[], ⟨"/c/c/e", some [⟨"c", some "e", false, some "c#e", none⟩]⟩, [],
        [], [("c#e", ⟨some 1, none, none⟩), ("stale", ⟨none, some 2, none⟩)]⟩).sidePanels
        ∧ p.sidePanelKey = some "c#e")
    ∧ (listenerApply ⟨[], ⟨"/c/x", none⟩, [], [], [("k", ⟨some 0, none, none⟩)]⟩).overrides = [] :=
  ⟨(c6_listener_prunes ⟨[], ⟨"/c/c/e", some [⟨"c", some "e", false, some "c#e", none⟩]⟩, [],
        [], [("c#e", ⟨some 1, none, none⟩), ("stale", ⟨none, some 2, none⟩)]⟩).1
      ("c#e", ⟨some 1, none, none⟩) (by decide),
   (c6_listener_prunes ⟨[], ⟨"/c/x", none⟩, [], [], [("k", ⟨some 0, none, none⟩)]⟩).2 rfl⟩

/-- Joining the slash-split segments of a path restores the path. -/
theorem joinSegs_splitOnSlash (s : String) : joinSegs (splitOnSlash s) = s := by
  unfold joinSegs splitOnSlash
  rw [List.map_map]
  have h : (String.data ∘ fun l => String.mk l) = id := rfl
  rw [h, List.map_id, List.intercalate_splitOn]

/-- When a candidate collection matches the whole segment list, the level
search finds it at full length. -/
theorem findAtLevel_full (segs : List String) (cols : List EntityCollection) (c : EntityCollection)
    (h : cols.find? (fun c' => c'.relativePath == joinSegs segs) = some c)
    (hpos : segs.length ≠ 0) :
    findAtLevel segs cols segs.length = some (c, segs.length) := by
  rcases hn : segs.length with _ | (_ | n)
  · exact absurd hn hpos
  · have hn1 : segs.length = 1 := by omega
    have htake : segs.take 1 = segs := by
      rw [← hn1]
      exact List.take_length segs
    unfold findAtLevel
    rw [htake, h]
  · have hn2 : segs.length = n + 2 := by omega
    have htake : segs.take (n + 2) = segs := by
      rw [← hn2]
      exact List.take_length segs
    unfold findAtLevel
    rw [htake, h]

/-- Claim C7: for every known top-level collection path (a path equal to the
relative path of a root collection, necessarily with an odd segment count),
resolution returns an entry whose relative path equals the matched path. -/
theorem c7_known_top_level (path : String) (cols : List EntityCollection) (c : EntityCollection)
    (hodd : (splitOnSlash path).length % 2 = 1)
    (hfind : cols.find? (fun c' => c'.relativePath == path) = some c) :
    getCollectionViewFromPath path cols = Except.ok (some c) ∧ c.relativePath = path := by
  have hrt : joinSegs (splitOnSlash path) = path := joinSegs_splitOnSlash path
  have hfind' : cols.find? (fun c' => c'.relativePath == joinSegs (splitOnSlash path)) = some c := by
    rw [hrt]
    exact hfind
  have hpos : (splitOnSlash path).length ≠ 0 := by omega
  have hfull := findAtLevel_full (splitOnSlash path) cols c hfind' hpos
  constructor
  · have heven : ((splitOnSlash path).length % 2 == 0) = false := by
      rw [hodd]
      rfl
    obtain ⟨m, hm⟩ : ∃ m, (splitOnSlash path).length = m + 1 := ⟨(splitOnSlash path).length - 1, by omega⟩
    simp only [getCollectionViewFromPath, heven, Bool.false_eq_true, if_false]
    rw [hm]
    unfold resolveLevels
    rw [hfull, hm]
    simp
  · have hp := List.find?_some hfind
    exact eq_of_beq hp

/-- Witness for claim C7 at the known top-level path of the repository's
test. -/
theorem c7_witness :
    ((splitOnSlash "products").length % 2 = 1) ∧
    (getCollectionViewFromPath "products" testCols
        = Except.ok (some ⟨"products", [⟨"locales", []⟩]⟩)
      ∧ EntityCollection.relativePath ⟨"products", [⟨"locales", []⟩]⟩ = "products") :=
  ⟨by decide,
   c7_known_top_level "products" testCols ⟨"products", [⟨"locales", []⟩]⟩ (by decide) (by rfl)⟩

/-- If no candidate matches any segment prefix up to `n`, the level search
fails. -/
theorem findAtLevel_eq_none (segs : List String) (cols : List EntityCollection) :
    ∀ n, (∀ k, k ≤ n →
        (cols.find? (fun c => c.relativePath == joinSegs (segs.take k))).isNone = true) →
      findAtLevel segs cols n = none := by
  intro n
  induction n using Nat.strong_induction_on with
  | _ n ih =>
    intro h
    rcases n with _ | (_ | k)
    · rfl
    · have h1 := h 1 (le_refl 1)
      rw [Option.isNone_iff_eq_none] at h1
      unfold findAtLevel
      rw [h1]
    · have h2 := h (k + 2) (le_refl _)
      rw [Option.isNone_iff_eq_none] at h2
      unfold findAtLevel
      rw [h2]
      exact ih k (by omega) (fun j hj => h j (by omega))

/-- A successful level search returns a positive length bounded by the fuel. -/
theorem findAtLevel_some_bounds (segs : List String) (cols : List EntityCollection) :
    ∀ n c k, findAtLevel segs cols n = some (c, k) → 1 ≤ k ∧ k ≤ n := by
  intro n
  induction n using Nat.strong_induction_on with
  | _ n ih =>
    intro c k h
    rcases n with _ | (_ | m)
    · exact absurd h (by simp [findAtLevel])
    · unfold findAtLevel at h
      rcases hf : cols.find? (fun c' => c'.relativePath == joinSegs (segs.take 1)) with _ | c0
      · rw [hf] at h
        exact absurd h (by simp)
      · rw [hf] at h
        have hk : 1 = k := congrArg Prod.snd (Option.some.inj h)
        omega
    · unfold findAtLevel at h
      rcases hf : cols.find? (fun c' => c'.relativePath == joinSegs (segs.take (m + 2))) with _ | c0
      · rw [hf] at h
        have := ih m (by omega) c k h
        omega
      · rw [hf] at h
        have hk : m + 2 = k := congrArg Prod.snd (Option.some.inj h)
        omega

/-- Claim C3 (amended): for every path with an odd segment count, if no
segment prefix of the path matches a root collection, or if the level search
matches a proper prefix but the remaining segments after the entity id match
no subcollection of the matched collection, resolution returns `none` and
does not throw.  (Even-segment paths throw by the parity rule, and the
top-level match may consume several segments, so the restriction to odd
counts and to prefixes is forced.) -/
theorem c3_no_match_returns_none (path : String) (cols : List EntityCollection)
    (hodd : (splitOnSlash path).length % 2 = 1) :
    ((∀ k, k ≤ (splitOnSlash path).length →
        (cols.find? (fun c => c.relativePath == joinSegs ((splitOnSlash path).take k))).isNone = true) →
      getCollectionViewFromPath path cols = Except.ok none)
    ∧ (∀ c k, findAtLevel (splitOnSlash path) cols (splitOnSlash path).length = some (c, k) →
        k ≠ (splitOnSlash path).length →
        (∀ j, j ≤ ((splitOnSlash path).drop (k + 1)).length →
          (c.subcollections.find? (fun c' =>
              c'.relativePath == joinSegs (((splitOnSlash path).drop (k + 1)).take j))).isNone = true) →
        getCollectionViewFromPath path cols = Except.ok none) := by
  have heven : ((splitOnSlash path).length % 2 == 0) = false := by
    rw [hodd]
    rfl
  obtain ⟨m, hm⟩ : ∃ m, (splitOnSlash path).length = m + 1 :=
    ⟨(splitOnSlash path).length - 1, by omega⟩
  constructor
  · intro h
    simp only [getCollectionViewFromPath, heven, Bool.false_eq_true, if_false]
    rw [hm]
    unfold resolveLevels
    rw [findAtLevel_eq_none (splitOnSlash path) cols (splitOnSlash path).length h]
  · intro c k hfind hkne hsub
    simp only [getCollectionViewFromPath, heven, Bool.false_eq_true, if_false]
    rw [hm]
    unfold resolveLevels
    rw [hfind]
    have hb : (k == (splitOnSlash path).length) = false := by
      simp [hkne]
    simp only [hb, Bool.false_eq_true, if_false]
    have hbounds := findAtLevel_some_bounds (splitOnSlash path) cols (splitOnSlash path).length c k hfind
    obtain ⟨m', hm'⟩ : ∃ m', m = m' + 1 := ⟨m - 1, by omega⟩
    rw [hm']
    unfold resolveLevels
    rw [findAtLevel_eq_none ((splitOnSlash path).drop (k + 1)) c.subcollections
      ((splitOnSlash path).drop (k + 1)).length hsub]

/-- Counterexample to claim C3 as stated: the path "zzz/id" has a first
segment matching no root collection, yet resolution throws the parity error
instead of returning no match, because the even-segment check runs first. -/
theorem c3_counterexample :
    getCollectionViewFromPath "zzz/id" testCols
      = Except.error "Collection paths must have an odd number of segments: zzz/id"
    ∧ (testCols.find? (fun c => c.relativePath == "zzz")).isNone = true := by
  exact ⟨rfl, rfl⟩

/-- Witness for the amended claim C3: an unknown top-level segment resolves
to no match, and an unmatched segment after an entity id resolves to no
match, both without throwing. -/
theorem c3_witness :
    ((splitOnSlash "zzz").length % 2 = 1 ∧ getCollectionViewFromPath "zzz" testCols = Except.ok none)
    ∧ ((splitOnSlash "products/pid/not_existing").length % 2 = 1
        ∧ getCollectionViewFromPath "products/pid/not_existing" testCols = Except.ok none) :=
  ⟨⟨by decide, (c3_no_match_returns_none "zzz" testCols (by decide)).1 (by decide)⟩,
   ⟨by decide, (c3_no_match_returns_none "products/pid/not_existing" testCols (by decide)).2
      ⟨"products", [⟨"locales", []⟩]⟩ 1 (by rfl) (by decide) (by decide)⟩⟩

/-- Whether a fallible operation succeeded (did not throw). -/
def exceptOk {α : Type} (e : Except String α) : Bool :=
  match e with
  | Except.ok _ => true
  | Except.error _ => false

/-- Claim C5 (amended): the subsystem throws in exactly two situations —
path resolution on even segment parity, and `open` when a copy is requested
without a truthy entity id.  Every other condition, in every exposed
operation, yields an undefined/empty result instead of an exception. -/
theorem c5_error_characterization :
    (∀ (path : String) (cols : List EntityCollection),
       exceptOk (getCollectionViewFromPath path cols) = true
         ↔ ¬ (splitOnSlash path).length % 2 = 0)
    ∧ (∀ (props : OpenProps) (s : ProviderState),
       exceptOk (openPanel props s) = true
         ↔ ¬ (truthyBool props.copy = true ∧ truthyStr props.entityId = false)) := by
  constructor
  · intro path cols
    unfold getCollectionViewFromPath
    by_cases h : (splitOnSlash path).length % 2 = 0
    · simp [h, exceptOk]
    · have hb : ((splitOnSlash path).length % 2 == 0) = false := by
        simp [h]
      simp [hb, exceptOk, h]
  · intro props s
    unfold openPanel
    by_cases h : truthyBool props.copy = true ∧ truthyStr props.entityId = false
    · have hb : (truthyBool props.copy && !truthyStr props.entityId) = true := by
        rw [h.1, h.2]
        rfl
      simp [hb, exceptOk, h.1, h.2]
    · have hb : (truthyBool props.copy && !truthyStr props.entityId) = false := by
        cases hc : truthyBool props.copy <;> cases he : truthyStr props.entityId <;> simp_all
      simp only [hb, Bool.false_eq_true, if_false]
      by_cases hm : openMatches props s = true
      · simp only [hm, if_true]
        cases hlast : s.sidePanels.getLast? <;> simp [exceptOk, h]
      · simp only [Bool.not_eq_true] at hm
        simp [hm, exceptOk, h]

/-- Counterexample to claim C5 as stated: `open` throws as well, when a copy
is requested without an entity id, so path resolution is not the only
throwing operation. -/
theorem c5_counterexample :
    openPanel ⟨"products", none, none, some true, none, none, none, none⟩
        ⟨[], ⟨"/c/products", none⟩, [], [], []⟩
      = Except.error "If you want to copy an entity you need to provide an entityId" := rfl

/-- Claim C10 (amended): with a non-empty `entitiesDisplayedFirst`, initially
and after every successful listener delivery the data begins with the
displayed-first entities that have defined values, in their given order, and
no delivered entity whose id collides with one of them appears after that
prefix.  (After an error delivery the data is reset to empty, so the original
"always" does not hold.) -/
theorem c10_displayed_first (entitiesDisplayedFirst : List Entity)
    (_hne : entitiesDisplayedFirst ≠ []) :
    dataAfter entitiesDisplayedFirst [] = initialEntities entitiesDisplayedFirst
    ∧ (∀ evs es, dataAfter entitiesDisplayedFirst (evs ++ [FetchEvent.success es])
        = updateData entitiesDisplayedFirst es)
    ∧ (∀ es,
        (updateData entitiesDisplayedFirst es).take (initialEntities entitiesDisplayedFirst).length
          = initialEntities entitiesDisplayedFirst
        ∧ ∀ e, e ∈ (updateData entitiesDisplayedFirst es).drop
              (initialEntities entitiesDisplayedFirst).length →
            e.id ∉ (initialEntities entitiesDisplayedFirst).map Entity.id) := by
  refine ⟨rfl, ?_, ?_⟩
  · intro evs es
    unfold dataAfter
    rw [List.foldl_append]
    rfl
  · intro es
    constructor
    · simp only [updateData]
      exact List.take_left _ _
    · intro e he
      simp only [updateData] at he
      rw [List.drop_left] at he
      rw [List.mem_filter] at he
      have hp := he.2
      simp only [Bool.not_eq_true'] at hp
      intro hmem
      have hc : (List.map Entity.id (initialEntities entitiesDisplayedFirst)).contains e.id = true := by
        simpa using hmem
      rw [hc] at hp
      exact Bool.true_eq_false.mp hp

/-- Counterexample to claim C10 as stated: with a non-empty
`entitiesDisplayedFirst` whose entity has defined values, an error delivery
resets the data to the empty list, which does not begin with that entity. -/
theorem c10_counterexample :
    ([⟨"a", some 0⟩] : List Entity) ≠ []
    ∧ initialEntities [⟨"a", some 0⟩] = [⟨"a", some 0⟩]
    ∧ dataAfter [⟨"a", some 0⟩] [FetchEvent.failure] = [] :=
  ⟨by decide, rfl, rfl⟩

/-- Witness for the amended claim C10: one displayed-first entity with
values, one delivered batch containing a colliding id and a fresh id. -/
theorem c10_witness :
    updateData [⟨"a", some 0⟩] [⟨"a", some 5⟩, ⟨"b", some 6⟩] = [⟨"a", some 0⟩, ⟨"b", some 6⟩]
    ∧ (updateData [⟨"a", some 0⟩] [⟨"a", some 5⟩, ⟨"b", some 6⟩]).take 1 = [⟨"a", some 0⟩] := by
  have := c10_displayed_first [⟨"a", some 0⟩] (by decide)
  refine ⟨by rfl, ?_⟩
  have h1 := (this.2.2 [⟨"a", some 5⟩, ⟨"b", some 6⟩]).1
  exact h1

/-- The loop body for one pair agrees with the claim's description of that
pair. -/
theorem buildStep_eq_claimStep (p e : NavigationViewEntry) (panels : List ExtendedPanelProps) :
    buildStep p e panels = claimStep panels (p, e) := by
  cases e <;> cases p <;> rfl

/-- The panels accumulated by the loop equal the claim's fold over the
adjacent pairs of the sequence. -/
theorem buildLoop_fst (rest : List NavigationViewEntry) :
    ∀ (prev : NavigationViewEntry) (panels : List ExtendedPanelProps) (lcp : String),
      (buildLoop (some prev) rest panels lcp).1
        = ((prev :: rest).zip rest).foldl claimStep panels := by
  induction rest with
  | nil =>
    intro prev panels lcp
    rfl
  | cons e rest ih =>
    intro prev panels lcp
    simp only [buildLoop]
    rw [ih, buildStep_eq_claimStep]
    rfl

/-- The last-collection path accumulated by the loop equals a fold over the
entries. -/
theorem buildLoop_snd (rest : List NavigationViewEntry) :
    ∀ (prev : Option NavigationViewEntry) (panels : List ExtendedPanelProps) (lcp : String),
      (buildLoop prev rest panels lcp).2
        = rest.foldl
            (fun acc e =>
              match e with
              | .collection fullPath _ => fullPath
              | _ => acc) lcp := by
  induction rest with
  | nil =>
    intro prev panels lcp
    rfl
  | cons e rest ih =>
    intro prev panels lcp
    simp only [buildLoop, List.foldl_cons]
    rw [ih]

/-- Claim C9: over every resolved navigation-entry sequence, the panel
construction creates a side panel exactly for each entity entry at position
`i > 0` whose predecessor is a collection entry; a collection or custom-view
entry at `i > 0` whose predecessor is an entity entry creates no panel but
sets the selected subpath of the last created panel; and when the new flag
is set one extra panel with no entity id for the last collection path is
appended. -/
theorem c9_build_side_panels (entries : List NavigationViewEntry) (newFlag : Bool) :
    buildSidePanelsFromEntries entries newFlag = buildSidePanelsClaim entries newFlag := by
  unfold buildSidePanelsFromEntries buildSidePanelsClaim
  cases entries with
  | nil => cases newFlag <;> rfl
  | cons e rest =>
    have h1 : (buildLoop none (e :: rest) [] "").1 = ((e :: rest).zip rest).foldl claimStep [] := by
      simp only [buildLoop]
      exact buildLoop_fst rest e [] _
    have h2 : (buildLoop none (e :: rest) [] "").2 = lastCollectionFullPath (e :: rest) := by
      simp only [buildLoop]
      rw [buildLoop_snd]
      rfl
    cases newFlag <;> simp only [List.tail_cons] <;> rw [h1, h2]

/-- The listener touches only panels and registry, never the history. -/
theorem listenerApply_history (s : ProviderState) :
    (listenerApply s).current = s.current
    ∧ (listenerApply s).back = s.back
    ∧ (listenerApply s).forward = s.forward := by
  unfold listenerApply
  cases s.current.panels <;> exact ⟨rfl, rfl, rfl⟩

/-- A list with a last element is non-empty. -/
theorem getLast?_some_pos {α : Type} (l : List α) (a : α) (h : l.getLast? = some a) :
    0 < l.length := by
  cases l with
  | nil => simp at h
  | cons x xs => simp

/-- Claim C4 (amended): for every `close` call on a non-empty panel stack,
if the current location state holds a non-empty panels list the controller
navigates back in history (the new state is then taken from the previous
history entry); otherwise it replaces the current history entry, without any
state, by the collection path of the topmost (closed) panel, which clears
the panel stack and the registry. -/
theorem c4_close_back_or_replace (s : ProviderState) :
    (∀ ps, s.current.panels = some ps → ps ≠ [] → s.sidePanels ≠ [] →
      closePanel s = historyGoBack s
      ∧ ∀ b, s.back.getLast? = some b →
          (closePanel s).current = b
          ∧ (closePanel s).back = s.back.dropLast
          ∧ (closePanel s).forward = s.current :: s.forward)
    ∧ (∀ last, s.sidePanels.getLast? = some last →
        (s.current.panels = none ∨ s.current.panels = some []) →
        (closePanel s).current = ⟨getCMSPathFrom last.collectionPath, none⟩
        ∧ (closePanel s).back = s.back
        ∧ (closePanel s).forward = s.forward
        ∧ (closePanel s).sidePanels = []
        ∧ (closePanel s).overrides = []) := by
  constructor
  · intro ps hcur hps hne
    have hlast : ∃ last, s.sidePanels.getLast? = some last := by
      cases hl : s.sidePanels.getLast? with
      | none =>
        rw [List.getLast?_eq_none_iff] at hl
        exact absurd hl hne
      | some last => exact ⟨last, rfl⟩
    obtain ⟨last, hl⟩ := hlast
    have hclose : closePanel s = historyGoBack s := by
      unfold closePanel
      rw [hl, hcur]
      dsimp only
      rw [if_pos (List.length_pos.mpr hps)]
    refine ⟨hclose, ?_⟩
    intro b hb
    rw [hclose]
    unfold historyGoBack
    rw [hb]
    obtain ⟨h1, h2, h3⟩ := listenerApply_history
      { s with back := s.back.dropLast, current := b, forward := s.current :: s.forward }
    exact ⟨h1, h2, h3⟩
  · intro last hl hcases
    have hclose : closePanel s = historyReplace s (getCMSPathFrom last.collectionPath) none := by
      unfold closePanel
      rw [hl]
      rcases hcases with hcur | hcur
      · rw [hcur]
      · rw [hcur]
        simp
    rw [hclose]
    unfold historyReplace
    rw [listenerApply_none _ rfl]
    exact ⟨rfl, rfl, rfl, rfl, rfl⟩

/-- Counterexample to claim C4 as stated: with no back-state, `close`
replaces the history entry with the collection path of the topmost panel
("colB"), not with a path of the prior panel ("colA"). -/
theorem c4_counterexample :
    (closePanel ⟨[], ⟨"/c/colB/e2", none⟩, [],
        [⟨"colA", some "e1", false, none, none⟩, ⟨"colB", some "e2", false, none, none⟩], []⟩).current.path
      = getCMSPathFrom "colB"
    ∧ getCMSPathFrom "colB" ≠ getCMSPathFrom "colA"
    ∧ getCMSPathFrom "colB" ≠ getEntityPath "e1" "colA" none := by
  exact ⟨rfl, by decide, by decide⟩

/-- Witness for the amended claim C4: a close with a panels-carrying location
navigates back; a close without one replaces with the topmost panel's
collection path. -/
theorem c4_witness :
    (closePanel ⟨[⟨"/c/products", none⟩],
        ⟨"/c/products/e", some [⟨"products", some "e", false, none, none⟩]⟩, [],
        [⟨"products", some "e", false, none, none⟩], []⟩
      = historyGoBack ⟨[⟨"/c/products", none⟩],
        ⟨"/c/products/e", some [⟨"products", some "e", false, none, none⟩]⟩, [],
        [⟨"products", some "e", false, none, none⟩], []⟩)
    ∧ (closePanel ⟨[], ⟨"/c/x", none⟩, [],
        [⟨"products", some "e", false, none, none⟩], []⟩).current
      = ⟨getCMSPathFrom "products", none⟩ := by
  have hA := (c4_close_back_or_replace ⟨[⟨"/c/products", none⟩],
      ⟨"/c/products/e", some [⟨"products", some "e", false, none, none⟩]⟩, [],
      [⟨"products", some "e", false, none, none⟩], []⟩).1
    [⟨"products", some "e", false, none, none⟩] rfl (by decide) (by decide)
  have hB := (c4_close_back_or_replace ⟨[], ⟨"/c/x", none⟩, [],
      [⟨"products", some "e", false, none, none⟩], []⟩).2
    ⟨"products", some "e", false, none, none⟩ rfl (Or.inl rfl)
  exact ⟨hA.1, hB.1⟩

/-- Registering schema props touches only the registry. -/
theorem applySchemaProps_fields (props : OpenProps) (s : ProviderState) :
    (applySchemaProps props s).back = s.back
    ∧ (applySchemaProps props s).forward = s.forward
    ∧ (applySchemaProps props s).current = s.current
    ∧ (applySchemaProps props s).sidePanels = s.sidePanels := by
  unfold applySchemaProps
  split <;> exact ⟨rfl, rfl, rfl, rfl⟩

/-- A replace carrying a panels state adopts those panels and keeps the
history shape. -/
theorem historyReplace_fields (s : ProviderState) (path : String) (ps : List ExtendedPanelProps) :
    (historyReplace s path (some ps)).sidePanels = ps
    ∧ (historyReplace s path (some ps)).back = s.back
    ∧ (historyReplace s path (some ps)).forward = s.forward := by
  unfold historyReplace
  rw [listenerApply_some _ ps rfl]
  exact ⟨rfl, rfl, rfl⟩

/-- A push carrying a panels state adopts those panels, moves the current
entry into the back list and clears the forward list. -/
theorem historyPush_fields (s : ProviderState) (path : String) (ps : List ExtendedPanelProps) :
    (historyPush s path (some ps)).sidePanels = ps
    ∧ (historyPush s path (some ps)).back = s.back ++ [s.current]
    ∧ (historyPush s path (some ps)).forward = [] := by
  unfold historyPush
  rw [listenerApply_some _ ps rfl]
  exact ⟨rfl, rfl, rfl⟩

/-- Claim C2 (amended): a call to `open` with a truthy (non-empty) entity id
equal to the topmost panel's entity id and a collection path equal to the
topmost panel's collection path updates the topmost panel in place and
replaces the history entry, leaving the panel stack length and the history
unchanged; every other non-throwing call appends a new panel to the stack
and pushes a new history entry. -/
theorem c2_open_replace_or_push (props : OpenProps) (s : ProviderState) :
    (openMatches props s = true →
      ∀ last, s.sidePanels.getLast? = some last →
        ∃ s2, openPanel props s = Except.ok s2
          ∧ s2.sidePanels = s.sidePanels.dropLast
              ++ [{ last with
                    sidePanelKey := some (getSidePanelKey props.collectionPath props.entityId),
                    selectedSubpath := props.selectedSubpath }]
          ∧ s2.sidePanels.length = s.sidePanels.length
          ∧ s2.back = s.back ∧ s2.forward = s.forward)
    ∧ (openMatches props s = false →
        (truthyBool props.copy && !truthyStr props.entityId) = false →
        ∃ s2, openPanel props s = Except.ok s2
          ∧ s2.sidePanels = s.sidePanels
              ++ [⟨props.collectionPath, props.entityId, truthyBool props.copy,
                   some (getSidePanelKey props.collectionPath props.entityId),
                   props.selectedSubpath⟩]
          ∧ s2.back = s.back ++ [s.current] ∧ s2.forward = []) := by
  constructor
  · intro hm last hl
    have htr : truthyStr props.entityId = true := by
      unfold openMatches at hm
      simp only [Bool.and_eq_true] at hm
      exact hm.1
    have hguard : (truthyBool props.copy && !truthyStr props.entityId) = false := by
      rw [htr]
      simp
    simp only [openPanel, hguard, Bool.false_eq_true, if_false, hm, eq_self_iff_true, if_true, hl]
    refine ⟨_, rfl, ?_, ?_, ?_, ?_⟩
    · exact (historyReplace_fields (applySchemaProps props s) _ _).1
    · rw [(historyReplace_fields (applySchemaProps props s) _ _).1]
      have hpos := getLast?_some_pos _ _ hl
      simp only [List.length_append, List.length_dropLast, List.length_cons, List.length_nil]
      omega
    · rw [(historyReplace_fields (applySchemaProps props s) _ _).2.1]
      exact (applySchemaProps_fields props s).1
    · rw [(historyReplace_fields (applySchemaProps props s) _ _).2.2]
      exact (applySchemaProps_fields props s).2.1
  · intro hm hguard
    simp only [openPanel, hguard, Bool.false_eq_true, if_false, hm]
    refine ⟨_, rfl, ?_, ?_, ?_⟩
    · exact (historyPush_fields (applySchemaProps props s) _ _).1
    · rw [(historyPush_fields (applySchemaProps props s) _ _).2.1]
      rw [(applySchemaProps_fields props s).1, (applySchemaProps_fields props s).2.2.1]
    · exact (historyPush_fields (applySchemaProps props s) _ _).2.2

/-- Counterexample to claim C2 as stated: with an empty-string entity id
equal to the topmost panel's entity id and an equal collection path, `open`
pushes a new panel (stack grows to 2) instead of updating in place, because
the empty string is falsy. -/
theorem c2_counterexample :
    ((⟨[], ⟨"/c/c", some [⟨"c", some "", false, none, none⟩]⟩, [],
        [⟨"c", some "", false, none, none⟩], []⟩ : ProviderState).sidePanels.getLast?).map
        ExtendedPanelProps.entityId = some (some "")
    ∧ ((⟨[], ⟨"/c/c", some [⟨"c", some "", false, none, none⟩]⟩, [],
        [⟨"c", some "", false, none, none⟩], []⟩ : ProviderState).sidePanels.getLast?).map
        ExtendedPanelProps.collectionPath = some "c"
    ∧ (⟨[], ⟨"/c/c", some [⟨"c", some "", false, none, none⟩]⟩, [],
        [⟨"c", some "", false, none, none⟩], []⟩ : ProviderState).sidePanels.length = 1
    ∧ (openPanel ⟨"c", some "", none, none, none, none, none, none⟩
        ⟨[], ⟨"/c/c", some [⟨"c", some "", false, none, none⟩]⟩, [],
          [⟨"c", some "", false, none, none⟩], []⟩).map (fun s2 => s2.sidePanels.length)
      = Except.ok 2 := by
  exact ⟨rfl, rfl, rfl, rfl⟩

/-- Witness for the amended claim C2: a matching open updates the single
panel in place; a non-matching open pushes a second panel and history
entry. -/
theorem c2_witness :
    (∃ s2, openPanel ⟨"products", some "p1", some "locales", none, none, none, none, none⟩
        ⟨[], ⟨"/c/products/p1", some [⟨"products", some "p1", false, none, none⟩]⟩, [],
          [⟨"products", some "p1", false, none, none⟩], []⟩ = Except.ok s2
      ∧ s2.sidePanels = [⟨"products", some "p1", false, some "products#p1", some "locales"⟩]
      ∧ s2.sidePanels.length = 1
      ∧ s2.back = [] ∧ s2.forward = [])
    ∧ (∃ s2, openPanel ⟨"books", some "b1", none, none, none, none, none, none⟩
        ⟨[], ⟨"/c/products/p1", some [⟨"products", some "p1", false, none, none⟩]⟩, [],
          [⟨"products", some "p1", false, none, none⟩], []⟩ = Except.ok s2
      ∧ s2.sidePanels = [⟨"products", some "p1", false, none, none⟩,
          ⟨"books", some "b1", false, some "books#b1", none⟩]
      ∧ s2.back = [⟨"/c/products/p1", some [⟨"products", some "p1", false, none, none⟩]⟩]
      ∧ s2.forward = []) := by
  constructor
  · exact (c2_open_replace_or_push ⟨"products", some "p1", some "locales", none, none, none, none, none⟩
      ⟨[], ⟨"/c/products/p1", some [⟨"products", some "p1", false, none, none⟩]⟩, [],
        [⟨"products", some "p1", false, none, none⟩], []⟩).1 rfl
      ⟨"products", some "p1", false, none, none⟩ rfl
  · exact (c2_open_replace_or_push ⟨"books", some "b1", none, none, none, none, none, none⟩
      ⟨[], ⟨"/c/products/p1", some [⟨"products", some "p1", false, none, none⟩]⟩, [],
        [⟨"products", some "p1", false, none, none⟩], []⟩).2 rfl rfl

end FireCMS
